import Mathlib

/-!
Verification development for the genselfie generation-orchestration engine.

The Python source is shallowly embedded: JSON values become an inductive
`JVal`, JSON objects become association lists (first binding wins, exactly
as a Python dict has unique keys), datetimes become integers, real
arithmetic is modelled exactly by rationals, and every HTTP interaction is
parametrised by its observable outcome (an `Except`/`Option` describing
transport failure, status code and body).  Fallible Python code
(uncaught exceptions) is embedded in `Except`.
-/

namespace GenSelfie

/-- A JSON scalar as it occurs in the workflow graphs and queue payloads:
a string or a number (Python ints and floats are modelled exactly by `ℚ`). -/
inductive JVal where
  | s : String → JVal
  | num : ℚ → JVal
deriving DecidableEq, Repr

/-- Association-list lookup: the first binding for the key, mirroring
`d[k]` / `k in d` on a Python dict (keys are unique there). -/
def lookupA [DecidableEq κ] : List (κ × α) → κ → Option α
  | [], _ => none
  | (k', v) :: rest, k => if k' = k then some v else lookupA rest k

/-- Association-list update mirroring Python `d[k] = v`: overwrite the
binding in place when the key is present, append it otherwise. -/
def setA [DecidableEq κ] (k : κ) (v : α) : List (κ × α) → List (κ × α)
  | [] => [(k, v)]
  | (k', v') :: rest => if k' = k then (k, v) :: rest else (k', v') :: setA k v rest

/-- Guarded update mirroring the Python pattern
`if k in d: d[k] = v` — no effect when the key is absent. -/
def setIfPresent [DecidableEq κ] (k : κ) (v : α) : List (κ × α) → List (κ × α)
  | [] => []
  | (k', v') :: rest =>
    if k' = k then (k, v) :: rest else (k', v') :: setIfPresent k v rest

/-- One node of a ComfyUI workflow graph.  `class_type` models
`node.get("class_type", "")` (`none` = key absent) and `inputs` models the
node's `"inputs"` dict (`none` = key absent; writes into the fresh default
`{}` produced by `node.get("inputs", {})` are lost, which the embedding
reproduces by leaving such nodes unchanged).  Input dicts are assumed to be
JSON objects, which is the shape of every ComfyUI workflow. -/
structure JNode where
  class_type : Option String
  inputs : Option (List (String × JVal))
deriving DecidableEq, Repr

/-- An entry of the top-level workflow dict: either a node object or some
other JSON value (the code skips non-dict entries with
`isinstance(node, dict)`). -/
inductive WEntry where
  | obj : JNode → WEntry
  | prim : JVal → WEntry
deriving DecidableEq, Repr

/-- A workflow graph: the top-level JSON object keyed by node id. -/
abbrev Workflow := List (String × WEntry)

/-! ## Python `round(x, 3)` on exact rationals

Python rounds half to even.  `roundHalfEven` is that rule for a rational,
and `pyRound3` is `round(x, 3)`. -/

/-- Round a rational to the nearest integer, ties to the even neighbour
(Python's `round`). -/
def roundHalfEven (q : ℚ) : ℤ :=
  if q - ⌊q⌋ < 1/2 then ⌊q⌋
  else if 1/2 < q - ⌊q⌋ then ⌊q⌋ + 1
  else if ⌊q⌋ % 2 = 0 then ⌊q⌋ else ⌊q⌋ + 1

/-- Python `round(x, 3)` over exact rationals. -/
def pyRound3 (x : ℚ) : ℚ := (roundHalfEven (x * 1000) : ℚ) / 1000

/-! ## Workflow mutation (src/services/comfyui.py, lines 408-491)

`set_dimensions`, `set_prompt`, `set_random_seed` and
`inject_images_into_workflow`, translated node for node.  The megapixel
value is the code's `max(0.1, min(16.0, round((width * height) / 1_000_000.0, 3)))`. -/

/-- The node class types whose `width`/`height` inputs `set_dimensions`
overwrites. -/
def sizedTypes : List String :=
  ["EmptyLatentImage", "EmptySD3LatentImage", "EmptyImage",
   "EmptyFlux2LatentImage", "Flux2Scheduler"]

/-- The code's megapixel computation:
`max(0.1, min(16.0, round((width * height) / 1_000_000.0, 3)))`. -/
def megapixelsValue (width height : ℤ) : ℚ :=
  max (1/10) (min 16 (pyRound3 (((width * height : ℤ) : ℚ) / 1000000)))

/-- Modelled from the spec: the spec's formula
`round(clamp(width*height/1e6, 0.1, 16.0), 3)` (rounding applied after the
clamp), stated for comparison with `megapixelsValue`. -/
def specMegapixels (width height : ℤ) : ℚ :=
  pyRound3 (max (1/10) (min 16 (((width * height : ℤ) : ℚ) / 1000000)))

/-- The per-node body of `set_dimensions`: write `width`/`height` when
present on a sized node, write (insert-or-overwrite) `megapixels` on an
`ImageScaleToTotalPixels` node.  A node whose `inputs` key is absent is
unchanged — the Python writes would go into the fresh `{}` default of
`node.get("inputs", {})` and be lost. -/
def setDimsNode (width height : ℤ) (node : JNode) : JNode :=
  match node.inputs with
  | none => node
  | some inputs0 =>
    let ct := node.class_type.getD ""
    let inputs1 :=
      if ct ∈ sizedTypes then
        setIfPresent "height" (JVal.num (height : ℚ))
          (setIfPresent "width" (JVal.num (width : ℚ)) inputs0)
      else inputs0
    let inputs2 :=
      if ct = "ImageScaleToTotalPixels" then
        setA "megapixels" (JVal.num (megapixelsValue width height)) inputs1
      else inputs1
    { node with inputs := some inputs2 }

/-- `set_dimensions(workflow, width, height)`: iterate over all entries,
skip non-dict values, rewrite each node. -/
def set_dimensions (workflow : Workflow) (width height : ℤ) : Workflow :=
  workflow.map (fun p =>
    match p.2 with
    | WEntry.prim v => (p.1, WEntry.prim v)
    | WEntry.obj node => (p.1, WEntry.obj (setDimsNode width height node)))

/-- The prompt-encoder class types rewritten by `set_prompt`. -/
def promptTypes : List String := ["CLIPTextEncode", "CLIPTextEncodeSDXL"]

/-- The per-node body of `set_prompt`: overwrite a present `text` input on
a text-encoder node. -/
def setPromptNode (prompt_text : String) (node : JNode) : JNode :=
  match node.inputs with
  | none => node
  | some inputs0 =>
    let ct := node.class_type.getD ""
    let inputs1 :=
      if ct ∈ promptTypes then setIfPresent "text" (JVal.s prompt_text) inputs0
      else inputs0
    { node with inputs := some inputs1 }

/-- `set_prompt(workflow, prompt_text)`. -/
def set_prompt (workflow : Workflow) (prompt_text : String) : Workflow :=
  workflow.map (fun p =>
    match p.2 with
    | WEntry.prim v => (p.1, WEntry.prim v)
    | WEntry.obj node => (p.1, WEntry.obj (setPromptNode prompt_text node)))

/-- Write input `key` of node `nid` through the Python expression
`workflow[nid]["inputs"][key] = v`: a non-dict node raises `TypeError`, a
node without an `inputs` dict raises `KeyError`; the surrounding code only
runs this after an `nid in workflow` membership check, and we mirror the
guard by leaving the workflow unchanged when the node is absent. -/
def setNodeInput (workflow : Workflow) (nid key : String) (v : JVal) :
    Except String Workflow :=
  match lookupA workflow nid with
  | none => Except.ok workflow
  | some (WEntry.prim _) => Except.error ("TypeError: node " ++ nid ++ " is not a dict")
  | some (WEntry.obj node) =>
    match node.inputs with
    | none => Except.error ("KeyError: inputs of node " ++ nid)
    | some m =>
      Except.ok (setA nid (WEntry.obj { node with inputs := some (setA key v m) }) workflow)

/-- Python truthiness of an optional string (`None` and `""` are falsy). -/
def truthyS : Option String → Bool
  | none => false
  | some s => !(decide (s = ""))

/-- `inject_images_into_workflow(workflow, fan_image, influencer_image)`:
node `"42"` receives the influencer image when the node exists and the
image is truthy; node `"46"` receives the fan image when the node exists. -/
def inject_images_into_workflow (workflow : Workflow) (fan_image : String)
    (influencer_image : Option String) : Except String Workflow := do
  let wf1 ←
    if truthyS influencer_image then
      setNodeInput workflow "42" "image" (JVal.s (influencer_image.getD ""))
    else Except.ok workflow
  setNodeInput wf1 "46" "image" (JVal.s fan_image)

/-- `set_random_seed(workflow)` with the drawn seed made explicit: node
`"25"` gets `noise_seed := seed` when present. -/
def set_random_seed (workflow : Workflow) (seed : ℕ) : Except String Workflow :=
  setNodeInput workflow "25" "noise_seed" (JVal.num (seed : ℚ))

/-! ## Object identity: the Python heap for workflow dicts

`inject_images_into_workflow` and `set_dimensions` mutate the dict they
are handed and return that same object.  To talk about "the original
template after the call" we model the heap explicitly: a store maps
references to workflow values, a caller holds a reference, and each
operation rewrites the referenced value in place and hands back the same
reference. -/

/-- A heap reference to a workflow object. -/
abbrev Ref := Nat

/-- The heap: workflow objects addressed by reference. -/
abbrev Store := List (Ref × Workflow)

/-- Dereference. -/
def storeGet (σ : Store) (r : Ref) : Option Workflow := lookupA σ r

/-- Store-level `inject_images_into_workflow`: the callee receives the
caller's object, mutates it in place and returns the same reference. -/
def inject_images_st (σ : Store) (r : Ref) (fan_image : String)
    (influencer_image : Option String) : Except String (Store × Ref) :=
  match storeGet σ r with
  | none => Except.error "NameError: dangling workflow reference"
  | some wf =>
    match inject_images_into_workflow wf fan_image influencer_image with
    | Except.error e => Except.error e
    | Except.ok wf1 => Except.ok (setA r wf1 σ, r)

/-- Store-level `set_dimensions`: same shape, the function never raises. -/
def set_dimensions_st (σ : Store) (r : Ref) (width height : ℤ) : Store × Ref :=
  match storeGet σ r with
  | none => (σ, r)
  | some wf => (setA r (set_dimensions wf width height) σ, r)

/-! ## Backend client (src/services/comfyui.py, lines 116-201 and 298-364)

Each HTTP call is parametrised by its observable outcome:
`Except Unit (ℕ × body)` is either a transport failure
(`httpx.RequestError`) or a response with its status code and parsed
body. -/

/-- The parsed body of `GET /queue`: the two job lists, each item a JSON
array whose element at index 1 is the prompt id. -/
structure QueueJson where
  queue_pending : List (List JVal) := []
  queue_running : List (List JVal) := []
deriving DecidableEq, Repr

/-- Outcome of the `GET /queue` request. -/
abbrev QueueFetch := Except Unit (ℕ × QueueJson)

/-- `get_queue_status()`: the parsed body on a 200 response, and the empty
fallback snapshot on a transport error or any other status. -/
def get_queue_status (fetch : QueueFetch) : QueueJson :=
  match fetch with
  | Except.error _ => {}
  | Except.ok (status, body) => if status = 200 then body else {}

/-- `is_prompt_complete(prompt_id)`: the job is complete when no item of
`queue_pending ++ queue_running` has the prompt id at index 1
(`len(item) > 1 and item[1] == prompt_id`). -/
def is_prompt_complete (fetch : QueueFetch) (prompt_id : String) : Bool :=
  let queue := get_queue_status fetch
  !((queue.queue_pending ++ queue.queue_running).any
      (fun item => decide (item.get? 1 = some (JVal.s prompt_id))))

/-- One entry of an `images` or `gifs` list in a history payload.
`filename` models `img.get("filename")` and `subfolder` models
`img.get("subfolder", "")` before the default is applied. -/
structure MediaItem where
  filename : Option String
  subfolder : Option String
deriving DecidableEq, Repr

/-- One node's outputs in a history payload (`images`/`gifs` lists, with
the `.get(..., [])` defaults folded in). -/
structure NodeOut where
  images : List MediaItem := []
  gifs : List MediaItem := []
deriving DecidableEq, Repr

/-- The history record for one prompt id (`.get("outputs", {})` folded in). -/
structure PromptHist where
  outputs : List (String × NodeOut)
deriving DecidableEq, Repr

/-- The parsed body of `GET /history/{prompt_id}`: a JSON object keyed by
prompt id.  `get_history` returns it only on a 200 response, so the
resolver below takes the whole outcome as `Option History`. -/
abbrev History := List (String × PromptHist)

/-- Result of `get_generation_status`. -/
structure GenStatusR where
  completed : Bool
  image_url : Option String := none
deriving DecidableEq, Repr

/-- The `if filename:` / `if subfolder:` URL construction for the first
entry of an `images` or `gifs` list: `None` and the empty string are
falsy, a non-empty subfolder selects the subfolder URL form.  Only
`items[0]` is examined, exactly as the code reads `images[0]`/`gifs[0]`. -/
def firstMediaUrl (base_url : String) (items : List MediaItem) : Option String :=
  match items with
  | [] => none
  | img :: _ =>
    match img.filename with
    | none => none
    | some fn =>
      if fn = "" then none
      else
        let sub := img.subfolder.getD ""
        if sub = "" then some (base_url ++ "/output/" ++ fn)
        else some (base_url ++ "/output/" ++ sub ++ "/" ++ fn)

/-- One node's contribution to output resolution: the `images` list is
consulted first, then the `gifs` list. -/
def nodeOutputUrl (base_url : String) (node_output : NodeOut) : Option String :=
  match firstMediaUrl base_url node_output.images with
  | some url => some url
  | none => firstMediaUrl base_url node_output.gifs

/-- The output scan of `get_generation_status`: nodes in enumeration
order, first usable entry wins. -/
def scanOutputs (base_url : String) : List (String × NodeOut) → Option String
  | [] => none
  | (_, node_output) :: rest =>
    match nodeOutputUrl base_url node_output with
    | some url => some url
    | none => scanOutputs base_url rest

/-- `get_generation_status(prompt_id)` with the two backend reads made
explicit: the queue fetch outcome and the `get_history` result (`none`
covers the transport-error and non-200 cases of `get_history`).  Mirrors
the source: not complete → `completed=False`; `not history or prompt_id
not in history` → `completed=False`; otherwise scan the outputs. -/
def get_generation_status (base_url : String) (fetch : QueueFetch)
    (history : Option History) (prompt_id : String) : GenStatusR :=
  if !(is_prompt_complete fetch prompt_id) then { completed := false }
  else
    match history with
    | none => { completed := false }
    | some h =>
      if h.isEmpty then { completed := false }
      else
        match lookupA h prompt_id with
        | none => { completed := false }
        | some ph => { completed := true, image_url := scanOutputs base_url ph.outputs }

/-- `queue_prompt(workflow)`: the outcome of the `POST /prompt` request is
a transport failure or a status code together with `data.get("prompt_id")`
of the parsed body.  The function returns the prompt id only on a 200
response and `None` otherwise — it never raises for these outcomes. -/
def queue_prompt (resp : Except Unit (ℕ × Option String)) : Option String :=
  match resp with
  | Except.error _ => none
  | Except.ok (status, body_prompt_id) =>
    if status = 200 then body_prompt_id else none

/-! ## Promo codes (src/services/codes.py, src/routers/public.py lines 31-43)

Datetimes are modelled as integers (`now` is the value of
`datetime.utcnow()` at check time).  `code.upper().strip()` is embedded
character-wise so that it evaluates inside proofs; promo codes are ASCII. -/

/-- Python `str.upper()` (ASCII range, which covers the stored codes). -/
def pyUpper (s : String) : String := String.mk (s.data.map Char.toUpper)

/-- Python `str.strip()`: drop whitespace from both ends. -/
def pyStrip (s : String) : String :=
  String.mk (((s.data.dropWhile Char.isWhitespace).reverse.dropWhile
      Char.isWhitespace).reverse)

/-- A row of the `promo_codes` table. -/
structure PromoCode where
  code : String
  uses_remaining : Option ℤ
  max_uses : Option ℤ
  expires_at : Option ℤ
  is_active : Bool
deriving DecidableEq, Repr

/-- The `SELECT ... WHERE code == :code AND is_active == True` row filter. -/
def promoMatches (norm : String) (p : PromoCode) : Bool :=
  decide (p.code = norm) && p.is_active

/-- The `uses_remaining is not None and uses_remaining <= 0` rejection test. -/
def usesDepleted (p : PromoCode) : Bool :=
  match p.uses_remaining with
  | some u => decide (u ≤ 0)
  | none => false

/-- The `expires_at and expires_at < now` rejection test (a datetime is
always truthy). -/
def isExpired (p : PromoCode) (now : ℤ) : Bool :=
  match p.expires_at with
  | some t => decide (t < now)
  | none => false

/-- The ORM mutation `promo.uses_remaining -= 1` applied to the selected
row: the first active row with the matching code is replaced by its
decremented copy (`None` stays `None`). -/
def consumeFirst (norm : String) : List PromoCode → List PromoCode
  | [] => []
  | p :: rest =>
    if promoMatches norm p then
      { p with uses_remaining := p.uses_remaining.map (fun u => u - 1) } :: rest
    else p :: consumeFirst norm rest

/-- `validate_and_consume_code(db, code)`: returns the updated table and
the `(success, error_message)` pair. -/
def validate_and_consume_code (db : List PromoCode) (code : String) (now : ℤ) :
    List PromoCode × Bool × String :=
  let norm := pyStrip (pyUpper code)
  match db.find? (promoMatches norm) with
  | none => (db, false, "Invalid promo code")
  | some promo =>
    if usesDepleted promo then (db, false, "This code has been fully used")
    else if isExpired promo now then (db, false, "This code has expired")
    else (consumeFirst norm db, true, "")

/-- Result of `get_code_info`. -/
structure CodeInfo where
  valid : Bool
  error : Option String := none
  uses_remaining : Option ℤ := none
  expires_at : Option ℤ := none
deriving DecidableEq, Repr

/-- `get_code_info(db, code)`: the same checks without the mutation. -/
def get_code_info (db : List PromoCode) (code : String) (now : ℤ) : CodeInfo :=
  let norm := pyStrip (pyUpper code)
  match db.find? (promoMatches norm) with
  | none => { valid := false, error := some "Invalid code" }
  | some promo =>
    if usesDepleted promo then { valid := false, error := some "Code fully used" }
    else if isExpired promo now then { valid := false, error := some "Code expired" }
    else { valid := true, uses_remaining := promo.uses_remaining,
           expires_at := promo.expires_at }

/-- `create_failsafe_code`: the promo row added for a failed generation,
with the random token made explicit
(`f"RETRY-{secrets.token_urlsafe(6).upper()}"`). -/
def mkFailsafePromo (token : String) : PromoCode :=
  { code := "RETRY-" ++ pyUpper token
    uses_remaining := some 1
    max_uses := some 1
    expires_at := none
    is_active := true }

/-! ## Generation ledger and orchestration
(src/routers/public.py lines 332-558, src/services/comfyui.py lines 204-295) -/

/-- The mutable part of a `generations` row. -/
structure Generation where
  status : String
  prompt_id : Option String
  result_image_url : Option String
  retry_code : Option String
  completed_at : Option ℤ
deriving DecidableEq, Repr

/-- The settings fields read by the status endpoint. -/
structure SettingsRow where
  failsafe_enabled : Bool
deriving DecidableEq, Repr

/-- The `settings and settings.failsafe_enabled` truthiness test
(`db.get` may return no row). -/
def settingsEnabled : Option SettingsRow → Bool
  | some st => st.failsafe_enabled
  | none => false

/-- The external-response part of one `/api/generation-status` call. -/
structure StatusResponse where
  status : String
  result_url : Option String := none
  retry_code : Option String := none
  error : Option String := none
deriving DecidableEq, Repr

/-- The side effects one `/api/generation-status` call performs beyond the
ledger-row update: result downloads attempted (with the URL handed to
`download_and_save_result`) and failsafe promo rows inserted. -/
structure Effects where
  downloads : List (Option String) := []
  minted : List PromoCode := []
deriving DecidableEq, Repr

/-- `generation_status(generation_id)` for an existing ledger row, as a
pure state transformer.  External outcomes are parameters: `comfy` is the
`get_generation_status` result, `download` the outcome of
`download_and_save_result` plus the commit guarded by the same `try`
(`Except.error` = any exception), `settingsRow` the `Settings` row,
`token` the random token a minted failsafe code would use, and `now` the
commit-time `datetime.utcnow()`. -/
def generation_status (generation : Generation) (comfy : GenStatusR)
    (download : Except String String) (settingsRow : Option SettingsRow)
    (token : String) (now : ℤ) : StatusResponse × Generation × Effects :=
  if generation.status = "completed" then
    ({ status := "completed", result_url := generation.result_image_url },
     generation, {})
  else if generation.status = "failed" then
    ({ status := "failed", retry_code := generation.retry_code }, generation, {})
  else
    match generation.prompt_id with
    | some _ =>
      if comfy.completed then
        match download with
        | Except.ok local_url =>
          ({ status := "completed", result_url := some local_url },
           { generation with
               status := "completed"
               result_image_url := some local_url
               completed_at := some now },
           { downloads := [comfy.image_url] })
        | Except.error e =>
          let mint := settingsEnabled settingsRow && decide (generation.retry_code = none)
          let rc : Option String := if mint then some (mkFailsafePromo token).code else none
          ({ status := "failed", error := some e, retry_code := rc },
           { generation with
               status := "failed"
               retry_code := if mint then rc else generation.retry_code },
           { downloads := [comfy.image_url]
             minted := if mint then [mkFailsafePromo token] else [] })
      else ({ status := generation.status }, generation, {})
    | none => ({ status := generation.status }, generation, {})

/-- Environment of one `generate_selfie` run: the observable outcomes of
its network interactions.  `fanUploadOk` is the result of uploading the
fan image (`upload_image_from_url` or `upload_image_to_comfyui`),
`influencerExists`/`influencerUploadOk` describe the influencer-image
loop (local existence and upload outcome per filename), `workflow` is the
graph loaded by `get_default_workflow`, and `queueResp` the outcome of the
`POST /prompt` request. -/
structure SelfieEnv where
  fanUploadOk : Bool
  influencerExists : String → Bool
  influencerUploadOk : String → Bool
  workflow : Workflow
  queueResp : Except Unit (ℕ × Option String)

/-- The workflow-preparation pipeline of `generate_selfie`: inject images,
apply preset dimensions when both are truthy (`if width and height:`),
apply the prompt when truthy (`if prompt:`), set the seed. -/
def buildWorkflow (workflow : Workflow) (fan_filename : String)
    (influencer_images : List String) (width height : Option ℤ)
    (prompt : Option String) (seed : ℕ) : Except String Workflow := do
  let wf ← inject_images_into_workflow workflow fan_filename influencer_images.head?
  let wf := match width, height with
    | some w, some h => if w ≠ 0 ∧ h ≠ 0 then set_dimensions wf w h else wf
    | _, _ => wf
  let wf := if truthyS prompt then set_prompt wf (prompt.getD "") else wf
  set_random_seed wf seed

/-- `generate_selfie` after the fan image was resolved to `fan_filename`:
abort when the fan upload failed; upload every influencer image that
exists locally, ignoring the outcomes; build the workflow; queue it.
Returns the `Except` outcome (the raised exception or the prompt id) and
the list of influencer uploads attempted. -/
def generate_selfie (env : SelfieEnv) (fan_filename : String)
    (influencer_images : List String) (width height : Option ℤ)
    (prompt : Option String) (seed : ℕ) : Except String String × List String :=
  if !env.fanUploadOk then
    (Except.error "Failed to upload fan image to ComfyUI", [])
  else
    let attempted := influencer_images.filter env.influencerExists
    let outcome : Except String String := do
      let _ ← buildWorkflow env.workflow fan_filename influencer_images
                width height prompt seed
      match queue_prompt env.queueResp with
      | none => Except.error "Failed to queue prompt on ComfyUI"
      | some prompt_id => Except.ok prompt_id
    (outcome, attempted)

/-- The tail of the `/api/generate` handler after the ledger row was
committed in status `pending`: a successful `generate_selfie` stores the
prompt id and moves the row to `processing`; an exception moves it to
`failed` and re-raises as HTTP 500. -/
def generate_tail (generation : Generation) (outcome : Except String String) :
    Generation × Except String String :=
  match outcome with
  | Except.ok prompt_id =>
    ({ generation with prompt_id := some prompt_id, status := "processing" },
     Except.ok prompt_id)
  | Except.error e =>
    ({ generation with status := "failed" }, Except.error e)

/-! ## Concrete fixtures used by counterexamples and witnesses -/

/-- A minimal template: a fan-image loader at node `"46"`. -/
def cWf : Workflow :=
  [("46", WEntry.obj { class_type := some "LoadImage",
                       inputs := some [("image", JVal.s "orig.png")] })]

/-- A one-object heap holding `cWf` at reference `0`. -/
def cStore : Store := [(0, cWf)]

/-- The value `cWf` is rewritten to by injecting `fan.png`. -/
def cWfMut : Workflow :=
  [("46", WEntry.obj { class_type := some "LoadImage",
                       inputs := some [("image", JVal.s "fan.png")] })]

/-- An active unlimited-use promo code expiring at time 5. -/
def c4Promo : PromoCode :=
  { code := "A", uses_remaining := none, max_uses := none,
    expires_at := some 5, is_active := true }

/-- A one-row promo table holding `c4Promo`. -/
def c4Db : List PromoCode := [c4Promo]

/-- An active two-use unexpiring promo code. -/
def c4Db2 : List PromoCode :=
  [{ code := "B", uses_remaining := some 2, max_uses := some 5,
     expires_at := none, is_active := true }]

/-- The promo-code usability invariant as amended: active row found, uses
unlimited or positive, expiry unset or not yet strictly passed. -/
def codeUsableNow (p : PromoCode) (now : ℤ) : Prop :=
  (p.uses_remaining = none ∨ ∃ u, p.uses_remaining = some u ∧ 0 < u) ∧
  (p.expires_at = none ∨ ∃ t, p.expires_at = some t ∧ now ≤ t)

/-- A node output whose `images` list has a usable filename at index 1
but not at index 0. -/
def c6Node : NodeOut :=
  { images := [{ filename := none, subfolder := none },
               { filename := some "a.png", subfolder := some "sub" }],
    gifs := [] }

/-- A history payload for prompt `"p1"` holding only `c6Node`. -/
def c6Hist : History := [("p1", { outputs := [("9", c6Node)] })]

/-- A node output whose first `images` entry is usable, with a non-empty
subfolder. -/
def c6GoodNode : NodeOut :=
  { images := [{ filename := some "g.png", subfolder := some "s" }], gifs := [] }

/-- A history payload for prompt `"p1"` holding only `c6GoodNode`. -/
def c6GoodHist : History := [("p1", { outputs := [("9", c6GoodNode)] })]

/-- A successful fetch of an empty queue. -/
def okEmptyQueue : QueueFetch := Except.ok (200, {})

/-- A history payload for job `"j1"` with a resolvable image output. -/
def c1Hist : History :=
  [("j1", { outputs :=
      [("9", { images := [{ filename := some "img.png", subfolder := none }],
               gifs := [] })] })]

/-- A successful fetch of a queue whose running list contains job `"j1"`. -/
def busyQueue : QueueFetch :=
  Except.ok (200, { queue_running := [[JVal.num 0, JVal.s "j1"]] })

/-- An `ImageScaleToTotalPixels` node with one unrelated input. -/
def istpNode : JNode :=
  { class_type := some "ImageScaleToTotalPixels",
    inputs := some [("image", JVal.s "x")] }

/-- A ledger row already in the `completed` state. -/
def cDoneGen : Generation :=
  { status := "completed", prompt_id := some "p1",
    result_image_url := some "/uploads/results/selfie_1.png",
    retry_code := none, completed_at := some 10 }

/-- A ledger row still in the `pending` state. -/
def cPendingGen : Generation :=
  { status := "pending", prompt_id := none, result_image_url := none,
    retry_code := none, completed_at := none }

/-- A ledger row in the `processing` state with a backend job id. -/
def cProcGen : Generation :=
  { status := "processing", prompt_id := some "p1", result_image_url := none,
    retry_code := none, completed_at := none }

/-- The workflow produced by `buildWorkflow` on `cWf` with fan image
`f.png` and no influencer, preset or seed node. -/
def c10Wf : Workflow :=
  [("46", WEntry.obj { class_type := some "LoadImage",
                       inputs := some [("image", JVal.s "f.png")] })]

/-- A sample generation environment with a healthy backend. -/
def cEnvOk : SelfieEnv :=
  { fanUploadOk := true
    influencerExists := fun _ => false
    influencerUploadOk := fun _ => true
    workflow := cWf
    queueResp := Except.ok (200, some "p1") }

/-! # Theorems -/

section AssocLemmas

variable {κ : Type} {α : Type} [DecidableEq κ]

theorem lookupA_setA (k k' : κ) (v : α) (l : List (κ × α)) :
    lookupA (setA k v l) k' = if k' = k then some v else lookupA l k' := by
  induction l with
  | nil =>
    by_cases h : k' = k
    · simp [setA, lookupA, h]
    · have h2 : ¬(k = k') := fun hh => h hh.symm
      simp [setA, lookupA, h, h2]
  | cons p t ih =>
    obtain ⟨a, b⟩ := p
    by_cases hak : a = k
    · subst hak
      by_cases hk : a = k'
      · subst hk
        simp [setA, lookupA]
      · have hk2 : ¬(k' = a) := fun hh => hk hh.symm
        simp [setA, lookupA, hk, hk2]
    · by_cases hak' : a = k'
      · subst hak'
        simp [setA, lookupA, hak, fun hh => hak (hh : a = k)]
      · simp [setA, lookupA, hak, hak', ih]

theorem setA_setA_same (k : κ) (v : α) (l : List (κ × α)) :
    setA k v (setA k v l) = setA k v l := by
  induction l with
  | nil => simp [setA]
  | cons p t ih =>
    obtain ⟨a, b⟩ := p
    by_cases hak : a = k <;> simp [setA, hak, ih]

theorem setIfPresent_idem (k : κ) (v : α) (l : List (κ × α)) :
    setIfPresent k v (setIfPresent k v l) = setIfPresent k v l := by
  induction l with
  | nil => simp [setIfPresent]
  | cons p t ih =>
    obtain ⟨a, b⟩ := p
    by_cases hak : a = k <;> simp [setIfPresent, hak, ih]

theorem setIfPresent_comm (k k' : κ) (v v' : α) (l : List (κ × α)) (h : ¬(k = k')) :
    setIfPresent k v (setIfPresent k' v' l) = setIfPresent k' v' (setIfPresent k v l) := by
  have h' : ¬(k' = k) := fun hh => h hh.symm
  induction l with
  | nil => simp [setIfPresent]
  | cons p t ih =>
    obtain ⟨a, b⟩ := p
    by_cases hak' : a = k'
    · subst hak'
      simp [setIfPresent, h, h', ih]
    · by_cases hak : a = k
      · subst hak
        simp [setIfPresent, hak', h, h', ih]
      · simp [setIfPresent, hak', hak, ih]

end AssocLemmas

theorem floor_le_roundHalfEven (q : ℚ) : ⌊q⌋ ≤ roundHalfEven q := by
  unfold roundHalfEven
  split
  · omega
  · split
    · omega
    · split <;> omega

theorem roundHalfEven_le_floor_add_one (q : ℚ) : roundHalfEven q ≤ ⌊q⌋ + 1 := by
  unfold roundHalfEven
  split
  · omega
  · split
    · omega
    · split <;> omega

theorem roundHalfEven_intCast (n : ℤ) : roundHalfEven (n : ℚ) = n := by
  unfold roundHalfEven
  have hf : ⌊(n : ℚ)⌋ = n := Int.floor_intCast n
  simp only [hf]
  have : (n : ℚ) - n = 0 := by ring
  rw [this]
  norm_num

theorem roundHalfEven_le_of_le (q : ℚ) (n : ℤ) (h : q ≤ (n : ℚ)) :
    roundHalfEven q ≤ n := by
  have hfl : ⌊q⌋ ≤ n := by
    have := Int.floor_le_floor h
    simpa [Int.floor_intCast] using this
  rcases lt_or_eq_of_le hfl with hlt | heq
  · have := roundHalfEven_le_floor_add_one q
    omega
  · have hq : q = (n : ℚ) := by
      have h1 : (⌊q⌋ : ℚ) ≤ q := Int.floor_le q
      rw [heq] at h1
      exact le_antisymm h h1
    rw [hq, roundHalfEven_intCast]

theorem le_roundHalfEven_of_le (n : ℤ) (q : ℚ) (h : (n : ℚ) ≤ q) :
    n ≤ roundHalfEven q := by
  have : n ≤ ⌊q⌋ := Int.le_floor.mpr h
  have := floor_le_roundHalfEven q
  omega

theorem pyRound3_intCast_div_1000 (n : ℤ) :
    pyRound3 ((n : ℚ) / 1000) = (n : ℚ) / 1000 := by
  unfold pyRound3
  rw [show ((n : ℚ) / 1000 * 1000) = (n : ℚ) by ring, roundHalfEven_intCast]

/-- Clamping after rounding (the code) agrees with rounding after clamping
(the spec formula) because the clamp bounds 0.1 and 16.0 are exact at
three decimals. -/
theorem clampRound_eq_roundClamp (k : ℤ) :
    max (1/10) (min 16 (pyRound3 ((k : ℚ) / 1000000)))
      = pyRound3 (max (1/10) (min 16 ((k : ℚ) / 1000000))) := by
  have hx1000 : ((k : ℚ) / 1000000) * 1000 = (k : ℚ) / 1000 := by ring
  rcases le_or_lt (k : ℚ) 100000 with hA | hA
  · -- width*height ≤ 0.1 megapixels: both sides clamp up to 0.1
    have hxle : (k : ℚ) / 1000000 ≤ 1/10 := by
      rw [div_le_iff₀ (by norm_num : (0:ℚ) < 1000000)]
      linarith
    have hq : (k : ℚ) / 1000 ≤ ((100 : ℤ) : ℚ) := by
      push_cast
      rw [div_le_iff₀ (by norm_num : (0:ℚ) < 1000)]
      linarith
    have hr : roundHalfEven (((k : ℚ) / 1000000) * 1000) ≤ 100 := by
      rw [hx1000]
      exact roundHalfEven_le_of_le _ 100 hq
    have hr3 : pyRound3 ((k : ℚ) / 1000000) ≤ 1/10 := by
      unfold pyRound3
      rw [div_le_iff₀ (by norm_num : (0:ℚ) < 1000)]
      have : ((roundHalfEven (((k : ℚ) / 1000000) * 1000) : ℤ) : ℚ) ≤ 100 := by
        exact_mod_cast hr
      linarith
    rw [min_eq_right (by linarith : pyRound3 ((k : ℚ) / 1000000) ≤ (16:ℚ)),
        max_eq_left hr3,
        min_eq_right (by linarith : (k : ℚ) / 1000000 ≤ (16:ℚ)),
        max_eq_left hxle,
        show (1/10 : ℚ) = ((100 : ℤ) : ℚ) / 1000 by norm_num,
        pyRound3_intCast_div_1000]
  · rcases le_or_lt (k : ℚ) 16000000 with hB | hB
    · -- between 0.1 and 16 megapixels: both clamps are the identity
      have hx1 : (1/10 : ℚ) ≤ (k : ℚ) / 1000000 := by
        rw [le_div_iff₀ (by norm_num : (0:ℚ) < 1000000)]
        linarith
      have hx2 : (k : ℚ) / 1000000 ≤ 16 := by
        rw [div_le_iff₀ (by norm_num : (0:ℚ) < 1000000)]
        linarith
      have hq1 : ((100 : ℤ) : ℚ) ≤ (k : ℚ) / 1000 := by
        push_cast
        rw [le_div_iff₀ (by norm_num : (0:ℚ) < 1000)]
        linarith
      have hq2 : (k : ℚ) / 1000 ≤ ((16000 : ℤ) : ℚ) := by
        push_cast
        rw [div_le_iff₀ (by norm_num : (0:ℚ) < 1000)]
        linarith
      have hr1 : (100 : ℤ) ≤ roundHalfEven (((k : ℚ) / 1000000) * 1000) := by
        rw [hx1000]
        exact le_roundHalfEven_of_le 100 _ hq1
      have hr2 : roundHalfEven (((k : ℚ) / 1000000) * 1000) ≤ 16000 := by
        rw [hx1000]
        exact roundHalfEven_le_of_le _ 16000 hq2
      have hr1q : (1/10 : ℚ) ≤ pyRound3 ((k : ℚ) / 1000000) := by
        unfold pyRound3
        rw [le_div_iff₀ (by norm_num : (0:ℚ) < 1000)]
        have : ((100 : ℤ) : ℚ) ≤ ((roundHalfEven (((k : ℚ) / 1000000) * 1000) : ℤ) : ℚ) := by
          exact_mod_cast hr1
        push_cast at this
        linarith
      have hr2q : pyRound3 ((k : ℚ) / 1000000) ≤ 16 := by
        unfold pyRound3
        rw [div_le_iff₀ (by norm_num : (0:ℚ) < 1000)]
        have : ((roundHalfEven (((k : ℚ) / 1000000) * 1000) : ℤ) : ℚ) ≤ ((16000 : ℤ) : ℚ) := by
          exact_mod_cast hr2
        push_cast at this
        linarith
      rw [min_eq_right hr2q, max_eq_right hr1q, min_eq_right hx2, max_eq_right hx1]
    · -- above 16 megapixels: both sides clamp down to 16
      have hx16 : (16 : ℚ) ≤ (k : ℚ) / 1000000 := by
        rw [le_div_iff₀ (by norm_num : (0:ℚ) < 1000000)]
        linarith
      have hq : ((16000 : ℤ) : ℚ) ≤ (k : ℚ) / 1000 := by
        push_cast
        rw [le_div_iff₀ (by norm_num : (0:ℚ) < 1000)]
        linarith
      have hr : (16000 : ℤ) ≤ roundHalfEven (((k : ℚ) / 1000000) * 1000) := by
        rw [hx1000]
        exact le_roundHalfEven_of_le 16000 _ hq
      have hr16 : (16 : ℚ) ≤ pyRound3 ((k : ℚ) / 1000000) := by
        unfold pyRound3
        rw [le_div_iff₀ (by norm_num : (0:ℚ) < 1000)]
        have : ((16000 : ℤ) : ℚ) ≤ ((roundHalfEven (((k : ℚ) / 1000000) * 1000) : ℤ) : ℚ) := by
          exact_mod_cast hr
        push_cast at this
        linarith
      rw [min_eq_left hr16, max_eq_right (by norm_num : (1/10 : ℚ) ≤ 16),
          min_eq_left hx16, max_eq_right (by norm_num : (1/10 : ℚ) ≤ 16),
          show (16 : ℚ) = ((16000 : ℤ) : ℚ) / 1000 by norm_num,
          pyRound3_intCast_div_1000]

/-- The code's megapixel value equals the spec formula for every pair of
integer dimensions. -/
theorem megapixelsValue_eq_specMegapixels (width height : ℤ) :
    megapixelsValue width height = specMegapixels width height := by
  unfold megapixelsValue specMegapixels
  exact clampRound_eq_roundClamp (width * height)

theorem specMegapixels_1024 : specMegapixels 1024 1024 = 1049/1000 := by
  unfold specMegapixels pyRound3 roundHalfEven
  norm_num [Int.floor_eq_iff, max_def, min_def]

theorem setDimsNode_idem (w h : ℤ) (n : JNode) :
    setDimsNode w h (setDimsNode w h n) = setDimsNode w h n := by
  rcases hn : n.inputs with _ | m
  · simp [setDimsNode, hn]
  · by_cases hi : n.class_type.getD "" = "ImageScaleToTotalPixels"
    · have hnotmem : ¬("ImageScaleToTotalPixels" ∈ sizedTypes) := by decide
      simp [setDimsNode, hn, hi, hnotmem, setA_setA_same]
    · by_cases hmem : n.class_type.getD "" ∈ sizedTypes
      · simp only [setDimsNode, hn, if_neg hi, if_pos hmem]
        congr 2
        rw [setIfPresent_comm "width" "height" _ _ (setIfPresent "width" (JVal.num (w : ℚ)) m)
              (by decide)]
        rw [setIfPresent_idem, setIfPresent_idem]
      · simp [setDimsNode, hn, hi, hmem]

theorem set_dimensions_idem (wf : Workflow) (w h : ℤ) :
    set_dimensions (set_dimensions wf w h) w h = set_dimensions wf w h := by
  induction wf with
  | nil => rfl
  | cons p t ih =>
    obtain ⟨id, e⟩ := p
    cases e with
    | prim v =>
      simpa [set_dimensions] using ih
    | obj nd =>
      simp only [set_dimensions, List.map_cons] at ih ⊢
      rw [setDimsNode_idem]
      exact congrArg _ (by simpa [set_dimensions] using ih)

/-- C3: for every positive width and height, dimension injection writes
the megapixel input of an `ImageScaleToTotalPixels` node as
`round(clamp(width*height/1e6, 0.1, 16.0), 3)`; re-applying
`set_dimensions` with the same dimensions changes nothing (so the
megapixel value is unchanged); and 1024×1024 yields 1.049. -/
theorem C3_dimension_injection (w h : ℤ) (_hw : 0 < w) (_hh : 0 < h) :
    (∀ (n : JNode) (m : List (String × JVal)),
        n.class_type = some "ImageScaleToTotalPixels" → n.inputs = some m →
        (setDimsNode w h n).inputs
            = some (setA "megapixels" (JVal.num (specMegapixels w h)) m) ∧
        lookupA ((setDimsNode w h n).inputs.getD []) "megapixels"
            = some (JVal.num (specMegapixels w h))) ∧
    (∀ wf : Workflow, set_dimensions (set_dimensions wf w h) w h = set_dimensions wf w h) ∧
    specMegapixels 1024 1024 = 1049/1000 := by
  refine ⟨?_, fun wf => set_dimensions_idem wf w h, specMegapixels_1024⟩
  intro n m hct hm
  have hct' : n.class_type.getD "" = "ImageScaleToTotalPixels" := by
    rw [hct]
    rfl
  have hnotmem : ¬("ImageScaleToTotalPixels" ∈ sizedTypes) := by decide
  have hkey : (setDimsNode w h n).inputs
      = some (setA "megapixels" (JVal.num (specMegapixels w h)) m) := by
    rw [← megapixelsValue_eq_specMegapixels]
    simp [setDimsNode, hm, hct', hnotmem]
  refine ⟨hkey, ?_⟩
  rw [hkey]
  simp [lookupA_setA]

/-- Witness for C3 at width = height = 1024 on a concrete
`ImageScaleToTotalPixels` node. -/
theorem C3_dimension_injection_witness :
    (setDimsNode 1024 1024 istpNode).inputs
        = some (setA "megapixels" (JVal.num (specMegapixels 1024 1024))
            [("image", JVal.s "x")]) ∧
    specMegapixels 1024 1024 = 1049/1000 :=
  ⟨((C3_dimension_injection 1024 1024 (by decide) (by decide)).1 istpNode
      [("image", JVal.s "x")] rfl rfl).1,
   (C3_dimension_injection 1024 1024 (by decide) (by decide)).2.2⟩

/-- C5 counterexample: injecting the fan image into the template at
reference 0 rewrites that very object — afterwards the reference no longer
holds the original template value, and the returned reference is the input
reference, not a new graph. -/
theorem C5_template_mutated_cex :
    inject_images_st cStore 0 "fan.png" none = Except.ok ([(0, cWfMut)], 0) ∧
    storeGet [(0, cWfMut)] 0 ≠ some cWf := by
  constructor
  · rfl
  · decide

/-- C5 amended: each instantiation operation mutates the referenced
workflow object in place and returns the same reference (not a new graph);
objects at other references are untouched, so instantiations working on
distinct workflow objects do not interfere. -/
theorem C5_in_place_instantiation (σ : Store) (r : Ref) (fan : String)
    (infl : Option String) (wf wf1 : Workflow) (width height : ℤ)
    (hwf : storeGet σ r = some wf) :
    (inject_images_into_workflow wf fan infl = Except.ok wf1 →
      inject_images_st σ r fan infl = Except.ok (setA r wf1 σ, r) ∧
      storeGet (setA r wf1 σ) r = some wf1 ∧
      ∀ r2, ¬(r2 = r) → storeGet (setA r wf1 σ) r2 = storeGet σ r2) ∧
    (set_dimensions_st σ r width height = (setA r (set_dimensions wf width height) σ, r) ∧
      ∀ r2, ¬(r2 = r) →
        storeGet (setA r (set_dimensions wf width height) σ) r2 = storeGet σ r2) := by
  constructor
  · intro hinj
    refine ⟨?_, ?_, ?_⟩
    · simp [inject_images_st, hwf, hinj]
    · unfold storeGet
      rw [lookupA_setA]
      simp
    · intro r2 hr2
      unfold storeGet
      rw [lookupA_setA, if_neg hr2]
  · constructor
    · unfold set_dimensions_st
      rw [hwf]
    · intro r2 hr2
      unfold storeGet
      rw [lookupA_setA, if_neg hr2]

/-- Witness for C5 (amended) on the concrete one-object heap. -/
theorem C5_in_place_instantiation_witness :
    set_dimensions_st cStore 0 2 2 = (setA 0 (set_dimensions cWf 2 2) cStore, 0) ∧
    storeGet (setA 0 (set_dimensions cWf 2 2) cStore) 1 = storeGet cStore 1 :=
  ⟨(C5_in_place_instantiation cStore 0 "x" none cWf cWf 2 2 rfl).2.1,
   (C5_in_place_instantiation cStore 0 "x" none cWf cWf 2 2 rfl).2.2 1 (by decide)⟩

/-- C1 counterexample: on a failed queue-snapshot fetch the fallback empty
snapshot makes the completion oracle report the job complete, so the
resolver does advance to the history check — and, when history is already
available, all the way to a resolved output. -/
theorem C1_failed_fetch_advances_cex :
    is_prompt_complete (Except.error ()) "j1" = true ∧
    get_generation_status "http://c" (Except.error ()) (some c1Hist) "j1"
      = { completed := true, image_url := some "http://c/output/img.png" } := by
  constructor
  · rfl
  · rfl

/-- C1 amended: a failed snapshot fetch (transport error or non-2xx)
yields the empty fallback snapshot, so the completion oracle reports the
job complete and the resolver advances to the history check; a
successfully fetched snapshot reports the job complete exactly when the
job id is absent from both the pending and running lists; and after a
failed fetch an unavailable history still keeps the overall status
not-completed. -/
theorem C1_queue_oracle (base prompt_id : String) (st : ℕ) (q : QueueJson) :
    is_prompt_complete (Except.error ()) prompt_id = true ∧
    (¬(st = 200) → is_prompt_complete (Except.ok (st, q)) prompt_id = true) ∧
    (is_prompt_complete (Except.ok (200, q)) prompt_id = true ↔
      ∀ item ∈ q.queue_pending ++ q.queue_running,
        ¬(item.get? 1 = some (JVal.s prompt_id))) ∧
    get_generation_status base (Except.error ()) none prompt_id
      = { completed := false } := by
  refine ⟨rfl, ?_, ?_, rfl⟩
  · intro hst
    simp [is_prompt_complete, get_queue_status, hst]
  · simp [is_prompt_complete, get_queue_status, List.any_eq_true, or_imp, forall_and]

/-- Witness for C1 (amended) at a non-200 status and a snapshot that does
list the job. -/
theorem C1_queue_oracle_witness :
    is_prompt_complete (Except.ok (500, ({} : QueueJson))) "j1" = true ∧
    get_generation_status "b" (Except.error ()) none "j1" = { completed := false } :=
  ⟨(C1_queue_oracle "b" "j1" 500 {}).2.1 (by decide),
   (C1_queue_oracle "b" "j1" 500 {}).2.2.2⟩

/-- C7: when the completion oracle reports the job complete but the
history lookup has no entry for the job id (fetch failed, empty payload,
or key absent), the resolver reports not-completed so polling continues,
rather than concluding failure. -/
theorem C7_missing_history_not_failure (base prompt_id : String)
    (fetch : QueueFetch) (history : Option History)
    (hc : is_prompt_complete fetch prompt_id = true)
    (hmiss : history = none ∨
      ∃ hh, history = some hh ∧ lookupA hh prompt_id = none) :
    get_generation_status base fetch history prompt_id = { completed := false } := by
  unfold get_generation_status
  rw [hc]
  rcases hmiss with hnone | ⟨hh, hsome, hlook⟩
  · simp [hnone]
  · rw [hsome]
    by_cases hemp : hh.isEmpty
    · simp [hemp]
    · simp [hemp, hlook]

/-- Witness for C7: job absent from a fetched empty queue, history fetch
unavailable. -/
theorem C7_missing_history_not_failure_witness :
    get_generation_status "b" okEmptyQueue none "j1" = { completed := false } :=
  C7_missing_history_not_failure "b" "j1" okEmptyQueue none (by decide) (Or.inl rfl)

theorem scanOutputs_append_none (base : String) (pre rest : List (String × NodeOut))
    (hpre : ∀ q ∈ pre, nodeOutputUrl base q.2 = none) :
    scanOutputs base (pre ++ rest) = scanOutputs base rest := by
  induction pre with
  | nil => rfl
  | cons q t ih =>
    obtain ⟨nid, no⟩ := q
    have hq : nodeOutputUrl base no = none := hpre (nid, no) (List.mem_cons_self _ _)
    simp only [List.cons_append, scanOutputs, hq]
    exact ih (fun p hp => hpre p (List.mem_cons_of_mem _ hp))

theorem scanOutputs_isSome (base : String) (outputs : List (String × NodeOut))
    (hex : ∃ p ∈ outputs, ¬(nodeOutputUrl base p.2 = none)) :
    ∃ u, scanOutputs base outputs = some u := by
  induction outputs with
  | nil =>
    rcases hex with ⟨p, hp, _⟩
    cases hp
  | cons q t ih =>
    obtain ⟨nid, no⟩ := q
    rcases hno : nodeOutputUrl base no with _ | u
    · rcases hex with ⟨p, hp, hne⟩
      rcases List.mem_cons.mp hp with heq | hmem
      · rw [heq] at hne
        exact absurd hno hne
      · have := ih ⟨p, hmem, hne⟩
        simpa [scanOutputs, hno] using this
    · exact ⟨u, by simp [scanOutputs, hno]⟩

/-- C6 counterexample: the history for job `"p1"` contains an `images`
entry with a filename (at index 1 of node `"9"`), yet the resolver returns
completed with no output URL, because only the first entry of each list is
examined. -/
theorem C6_images_entry_not_first_cex :
    ({ filename := some "a.png", subfolder := some "sub" } : MediaItem) ∈ c6Node.images ∧
    lookupA c6Hist "p1" = some { outputs := [("9", c6Node)] } ∧
    get_generation_status "http://c" okEmptyQueue (some c6Hist) "p1"
      = { completed := true, image_url := none } := by
  refine ⟨by decide, rfl, rfl⟩

/-- C6 amended: when some node's FIRST `images` entry has a non-empty
filename the resolver returns completed with an output URL; only the
first entry of each `images`/`gifs` list is examined; the URL of that
entry uses the subfolder form exactly when the subfolder is non-empty;
nodes are scanned in enumeration order with the first usable node
winning, `images` consulted before `gifs` within a node. -/
theorem C6_output_resolution (base prompt_id : String) (fetch : QueueFetch)
    (h : History) (ph : PromptHist)
    (hc : is_prompt_complete fetch prompt_id = true)
    (hlook : lookupA h prompt_id = some ph)
    (hne : h.isEmpty = false) :
    (get_generation_status base fetch (some h) prompt_id
        = { completed := true, image_url := scanOutputs base ph.outputs }) ∧
    (∀ (pre : List (String × NodeOut)) (nid : String) (no : NodeOut)
        (post : List (String × NodeOut)) (u : String),
        ph.outputs = pre ++ (nid, no) :: post →
        (∀ q ∈ pre, nodeOutputUrl base q.2 = none) →
        nodeOutputUrl base no = some u →
        scanOutputs base ph.outputs = some u) ∧
    (∀ (no : NodeOut) (item : MediaItem) (rest : List MediaItem) (fn : String),
        no.images = item :: rest → item.filename = some fn → ¬(fn = "") →
        nodeOutputUrl base no
          = some (if item.subfolder.getD "" = "" then base ++ "/output/" ++ fn
                  else base ++ "/output/" ++ item.subfolder.getD "" ++ "/" ++ fn)) ∧
    ((∃ p ∈ ph.outputs, ¬(nodeOutputUrl base p.2 = none)) →
        ∃ u, get_generation_status base fetch (some h) prompt_id
          = { completed := true, image_url := some u }) := by
  have hmain : get_generation_status base fetch (some h) prompt_id
      = { completed := true, image_url := scanOutputs base ph.outputs } := by
    unfold get_generation_status
    rw [hc]
    simp [hne, hlook]
  refine ⟨hmain, ?_, ?_, ?_⟩
  · intro pre nid no post u hout hpre hno
    rw [hout, scanOutputs_append_none base pre _ hpre]
    simp [scanOutputs, hno]
  · intro no item rest fn himg hfn hfne
    simp only [nodeOutputUrl, firstMediaUrl, himg, hfn, if_neg hfne]
    by_cases hsub : item.subfolder.getD "" = "" <;> simp [hsub]
  · intro hex
    obtain ⟨u, hu⟩ := scanOutputs_isSome base ph.outputs hex
    exact ⟨u, by rw [hmain, hu]⟩

/-- Witness for C6 (amended): a first-entry image with subfolder `"s"`
resolves to the subfolder URL form. -/
theorem C6_output_resolution_witness :
    get_generation_status "b" okEmptyQueue (some c6GoodHist) "p1"
      = { completed := true, image_url := some "b/output/s/g.png" } :=
  (C6_output_resolution "b" "p1" okEmptyQueue c6GoodHist
      { outputs := [("9", c6GoodNode)] } (by decide) rfl rfl).1

theorem usesDepleted_false_iff (p : PromoCode) :
    usesDepleted p = false ↔
      (p.uses_remaining = none ∨ ∃ u, p.uses_remaining = some u ∧ 0 < u) := by
  unfold usesDepleted
  rcases hu : p.uses_remaining with _ | u
  · simp
  · simp only [hu, decide_eq_false_iff_not, not_le, Option.some.injEq]
    constructor
    · intro h
      exact Or.inr ⟨u, rfl, h⟩
    · rintro (h | ⟨u', hu', h⟩)
      · cases h
      · omega

theorem isExpired_false_iff (p : PromoCode) (now : ℤ) :
    isExpired p now = false ↔
      (p.expires_at = none ∨ ∃ t, p.expires_at = some t ∧ now ≤ t) := by
  unfold isExpired
  rcases ht : p.expires_at with _ | t
  · simp
  · simp only [ht, decide_eq_false_iff_not, not_lt, Option.some.injEq]
    constructor
    · intro h
      exact Or.inr ⟨t, rfl, h⟩
    · rintro (h | ⟨t', ht', h⟩)
      · cases h
      · omega

theorem checks_iff_usable (p : PromoCode) (now : ℤ) :
    (usesDepleted p = false ∧ isExpired p now = false) ↔ codeUsableNow p now := by
  rw [usesDepleted_false_iff, isExpired_false_iff]
  exact Iff.rfl

theorem vcc_success_iff (db : List PromoCode) (code : String) (now : ℤ) :
    (validate_and_consume_code db code now).2.1 = true ↔
      ∃ p, db.find? (promoMatches (pyStrip (pyUpper code))) = some p ∧
        codeUsableNow p now := by
  unfold validate_and_consume_code
  rcases hfind : db.find? (promoMatches (pyStrip (pyUpper code))) with _ | promo
  · simp [hfind]
  · simp only [hfind]
    by_cases hu : usesDepleted promo = true
    · rw [if_pos hu]
      apply iff_of_false
      · simp
      · rintro ⟨p, hp, hus⟩
        rw [Option.some.injEq] at hp
        subst hp
        have := ((checks_iff_usable promo now).mpr hus).1
        rw [hu] at this
        cases this
    · rw [if_neg hu]
      by_cases he : isExpired promo now = true
      · rw [if_pos he]
        apply iff_of_false
        · simp
        · rintro ⟨p, hp, hus⟩
          rw [Option.some.injEq] at hp
          subst hp
          have := ((checks_iff_usable promo now).mpr hus).2
          rw [he] at this
          cases this
      · rw [if_neg he]
        apply iff_of_true
        · rfl
        · exact ⟨promo, rfl,
            (checks_iff_usable promo now).mp
              ⟨Bool.not_eq_true _ ▸ Bool.of_not_eq_true hu,
               Bool.of_not_eq_true he⟩⟩

theorem vcc_info_agree (db : List PromoCode) (code : String) (now : ℤ) :
    (get_code_info db code now).valid = (validate_and_consume_code db code now).2.1 := by
  unfold validate_and_consume_code get_code_info
  rcases hfind : db.find? (promoMatches (pyStrip (pyUpper code))) with _ | promo
  · simp [hfind]
  · by_cases hu : usesDepleted promo = true <;>
      by_cases he : isExpired promo now = true <;>
      simp [hfind, hu, he]

theorem vcc_db_change (db : List PromoCode) (code : String) (now : ℤ) :
    ((validate_and_consume_code db code now).2.1 = true →
      (validate_and_consume_code db code now).1
        = consumeFirst (pyStrip (pyUpper code)) db) ∧
    ((validate_and_consume_code db code now).2.1 = false →
      (validate_and_consume_code db code now).1 = db) := by
  unfold validate_and_consume_code
  rcases hfind : db.find? (promoMatches (pyStrip (pyUpper code))) with _ | promo
  · simp [hfind]
  · by_cases hu : usesDepleted promo = true <;>
      by_cases he : isExpired promo now = true <;>
      simp [hfind, hu, he]

theorem consumeFirst_find (norm : String) (db : List PromoCode) (p : PromoCode)
    (hfind : db.find? (promoMatches norm) = some p) :
    (consumeFirst norm db).find? (promoMatches norm)
      = some { p with uses_remaining := p.uses_remaining.map (fun u => u - 1) } := by
  induction db with
  | nil => cases hfind
  | cons p0 t ih =>
    by_cases hm : promoMatches norm p0 = true
    · rw [List.find?_cons_of_pos _ hm] at hfind
      rw [Option.some.injEq] at hfind
      subst hfind
      have hm' : promoMatches norm
          { p0 with uses_remaining := p0.uses_remaining.map (fun u => u - 1) } = true := by
        unfold promoMatches at hm ⊢
        simpa using hm
      unfold consumeFirst
      rw [if_pos hm, List.find?_cons_of_pos _ hm']
    · rw [List.find?_cons_of_neg _ hm] at hfind
      unfold consumeFirst
      rw [if_neg hm, List.find?_cons_of_neg _ hm]
      exact ih hfind

/-- C4 counterexample: at `now = expires_at` (here both 5) the code is
accepted by both the consuming and the non-consuming check, although the
claim requires `now` strictly before `expires_at` for acceptance. -/
theorem C4_expiry_boundary_cex :
    (validate_and_consume_code c4Db "A" 5).2.1 = true ∧
    (get_code_info c4Db "A" 5).valid = true ∧
    ¬((5 : ℤ) < 5) := by
  refine ⟨by decide, by decide, by decide⟩

/-- C4 amended: validation and consumption succeed iff an active row with
the normalized code exists, has unlimited or positive uses, and is
unexpired in the sense `expires_at` is unset or not strictly before `now`
(`now ≤ expires_at`; the boundary `now = expires_at` is accepted); a code
whose `expires_at` is strictly in the past is rejected by both paths
regardless of `uses_remaining`; a successful consume decrements the
stored row's `uses_remaining` exactly when it is finite, and a failed
call leaves the table unchanged. -/
theorem C4_code_gate (db : List PromoCode) (code : String) (now : ℤ) :
    ((validate_and_consume_code db code now).2.1 = true ↔
      ∃ p, db.find? (promoMatches (pyStrip (pyUpper code))) = some p ∧
        codeUsableNow p now) ∧
    ((get_code_info db code now).valid = (validate_and_consume_code db code now).2.1) ∧
    (∀ p t, db.find? (promoMatches (pyStrip (pyUpper code))) = some p →
        p.expires_at = some t → t < now →
        (validate_and_consume_code db code now).2.1 = false ∧
        (get_code_info db code now).valid = false) ∧
    ((validate_and_consume_code db code now).2.1 = true →
      (validate_and_consume_code db code now).1
        = consumeFirst (pyStrip (pyUpper code)) db) ∧
    ((validate_and_consume_code db code now).2.1 = false →
      (validate_and_consume_code db code now).1 = db) ∧
    (∀ p, db.find? (promoMatches (pyStrip (pyUpper code))) = some p →
        (consumeFirst (pyStrip (pyUpper code)) db).find? (promoMatches (pyStrip (pyUpper code)))
          = some { p with uses_remaining := p.uses_remaining.map (fun u => u - 1) }) := by
  refine ⟨vcc_success_iff db code now, vcc_info_agree db code now, ?_,
    (vcc_db_change db code now).1, (vcc_db_change db code now).2, ?_⟩
  · intro p t hfind ht hlt
    have hsucc : (validate_and_consume_code db code now).2.1 = false := by
      rcases hb : (validate_and_consume_code db code now).2.1 with _ | _
      · rfl
      · exfalso
        rcases (vcc_success_iff db code now).mp hb with ⟨p', hp', hus⟩
        rw [hfind, Option.some.injEq] at hp'
        subst hp'
        rcases hus.2 with hnone | ⟨t', ht', hle⟩
        · rw [ht] at hnone
          cases hnone
        · rw [ht, Option.some.injEq] at ht'
          subst ht'
          omega
    exact ⟨hsucc, by rw [vcc_info_agree db code now, hsucc]⟩
  · intro p hfind
    exact consumeFirst_find (pyStrip (pyUpper code)) db p hfind

/-- Witness for C4 (amended) on a concrete two-use code. -/
theorem C4_code_gate_witness :
    (get_code_info c4Db2 "b" 0).valid = (validate_and_consume_code c4Db2 "b" 0).2.1 ∧
    (validate_and_consume_code c4Db2 "b" 0).1
      = consumeFirst (pyStrip (pyUpper "b")) c4Db2 :=
  ⟨(C4_code_gate c4Db2 "b" 0).2.1,
   (C4_code_gate c4Db2 "b" 0).2.2.2.1 (by decide)⟩

/-- C8: a status query on a ledger row already `completed` or `failed`
returns immediately with the row and the effect log unchanged (no second
download, no second compensation code); `retry_code` is never overwritten
once set; and a failsafe code is minted only on the transition into
`failed` during result resolution — from a not-yet-terminal row with
compensation enabled, a completed backend job, a failed download and no
prior code — in which case exactly the one new code is minted and
recorded. -/
theorem C8_compensation_once (gen : Generation) (comfy : GenStatusR)
    (download : Except String String) (s : Option SettingsRow) (token : String)
    (now : ℤ) :
    (gen.status = "completed" →
        generation_status gen comfy download s token now
          = ({ status := "completed", result_url := gen.result_image_url }, gen, {})) ∧
    (gen.status = "failed" →
        generation_status gen comfy download s token now
          = ({ status := "failed", retry_code := gen.retry_code }, gen, {})) ∧
    (∀ c, gen.retry_code = some c →
        (generation_status gen comfy download s token now).2.1.retry_code = some c) ∧
    (¬((generation_status gen comfy download s token now).2.2.minted = []) →
        ¬(gen.status = "completed") ∧ ¬(gen.status = "failed") ∧
        gen.retry_code = none ∧ s = some { failsafe_enabled := true } ∧
        comfy.completed = true ∧ (∃ e, download = Except.error e) ∧
        (generation_status gen comfy download s token now).2.1.status = "failed" ∧
        (generation_status gen comfy download s token now).2.2.minted
            = [mkFailsafePromo token] ∧
        (generation_status gen comfy download s token now).2.1.retry_code
            = some (mkFailsafePromo token).code) := by
  by_cases h1 : gen.status = "completed"
  · refine ⟨fun _ => by simp [generation_status, h1], ?_, ?_, ?_⟩
    · intro h2
      exact absurd (h1.symm.trans h2) (by decide)
    · intro c hc
      simp [generation_status, h1, hc]
    · intro hmint
      exact absurd (by simp [generation_status, h1]) hmint
  · by_cases h2 : gen.status = "failed"
    · refine ⟨fun hh => absurd hh h1, fun _ => by simp [generation_status, h1, h2], ?_, ?_⟩
      · intro c hc
        simp [generation_status, h1, h2, hc]
      · intro hmint
        exact absurd (by simp [generation_status, h1, h2]) hmint
    · refine ⟨fun hh => absurd hh h1, fun hh => absurd hh h2, ?_, ?_⟩
      · -- retry_code is never overwritten once set
        intro c hc
        rcases hp : gen.prompt_id with _ | pid
        · simp [generation_status, h1, h2, hp, hc]
        · rcases download with e | u
          · have hmf : (settingsEnabled s && decide (gen.retry_code = none)) = false := by
              simp [hc]
            by_cases hcc : comfy.completed = true
            · simp [generation_status, h1, h2, hp, hcc, hmf, hc]
            · simp [generation_status, h1, h2, hp, Bool.of_not_eq_true hcc, hc]
          · by_cases hcc : comfy.completed = true
            · simp [generation_status, h1, h2, hp, hcc, hc]
            · simp [generation_status, h1, h2, hp, Bool.of_not_eq_true hcc, hc]
      · -- a mint can only come from the resolution-failure branch
        intro hmint
        rcases hp : gen.prompt_id with _ | pid
        · exact absurd (by simp [generation_status, h1, h2, hp]) hmint
        · by_cases hcc : comfy.completed = true
          · rcases download with e | u
            · by_cases hm : (settingsEnabled s && decide (gen.retry_code = none)) = true
              · have hparts := (Bool.and_eq_true _ _).mp hm
                have hrc : gen.retry_code = none := of_decide_eq_true hparts.2
                have hs : s = some { failsafe_enabled := true } := by
                  rcases s with _ | ⟨⟨fe⟩⟩
                  · cases hparts.1
                  · have hfe : fe = true := by
                      simpa [settingsEnabled] using hparts.1
                    rw [hfe]
                refine ⟨h1, h2, hrc, hs, hcc, ⟨e, rfl⟩, ?_, ?_, ?_⟩ <;>
                  simp [generation_status, h1, h2, hp, hcc, hm]
              · have hm' := Bool.of_not_eq_true hm
                exact absurd
                  (by simp [generation_status, h1, h2, hp, hcc, hm']) hmint
            · exact absurd (by simp [generation_status, h1, h2, hp, hcc]) hmint
          · exact absurd
              (by simp [generation_status, h1, h2, hp, Bool.of_not_eq_true hcc]) hmint

/-- Witness for C8 on a ledger row already completed. -/
theorem C8_compensation_once_witness :
    generation_status cDoneGen { completed := false } (Except.ok "u") none "t" 0
      = ({ status := "completed", result_url := cDoneGen.result_image_url },
         cDoneGen, {}) :=
  (C8_compensation_once cDoneGen { completed := false } (Except.ok "u") none "t" 0).1 rfl

/-- C9: job submission returns `None` (no client exception) on a transport
failure and on every non-200 response, and a submission failure after
authorization moves the pending ledger row to `failed` while re-raising
the error. -/
theorem C9_submit_failure (st : ℕ) (body : Option String) (gen : Generation)
    (e : String) :
    queue_prompt (Except.error ()) = none ∧
    (¬(st = 200) → queue_prompt (Except.ok (st, body)) = none) ∧
    (gen.status = "pending" →
        (generate_tail gen (Except.error e)).1.status = "failed" ∧
        (generate_tail gen (Except.error e)).2 = Except.error e) := by
  refine ⟨rfl, ?_, ?_⟩
  · intro hst
    simp [queue_prompt, hst]
  · intro _
    exact ⟨rfl, rfl⟩

/-- Witness for C9 at a 500 response and a pending ledger row. -/
theorem C9_submit_failure_witness :
    queue_prompt (Except.ok (500, some "p")) = none ∧
    (generate_tail cPendingGen (Except.error "boom")).1.status = "failed" :=
  ⟨(C9_submit_failure 500 (some "p") cPendingGen "boom").2.1 (by decide),
   ((C9_submit_failure 500 (some "p") cPendingGen "boom").2.2 rfl).1⟩

/-- C10: only a failed fan-image upload aborts `generate_selfie` (with no
influencer upload even attempted); the outcome is entirely independent of
which influencer images exist locally and whether their uploads succeed;
and with the fan upload fine the run proceeds to build the workflow and
submit it, failing only if the queue call does. -/
theorem C10_influencer_uploads_ignored (ok : Bool) (fe fu fe2 fu2 : String → Bool)
    (wf : Workflow) (qr : Except Unit (ℕ × Option String)) (fan : String)
    (imgs : List String) (w h : Option ℤ) (p : Option String) (sd : ℕ) :
    (ok = false →
        generate_selfie ⟨ok, fe, fu, wf, qr⟩ fan imgs w h p sd
          = (Except.error "Failed to upload fan image to ComfyUI", [])) ∧
    ((generate_selfie ⟨ok, fe, fu, wf, qr⟩ fan imgs w h p sd).1
        = (generate_selfie ⟨ok, fe2, fu2, wf, qr⟩ fan imgs w h p sd).1) ∧
    (∀ wfB, ok = true → buildWorkflow wf fan imgs w h p sd = Except.ok wfB →
        ((queue_prompt qr = none →
            (generate_selfie ⟨ok, fe, fu, wf, qr⟩ fan imgs w h p sd).1
              = Except.error "Failed to queue prompt on ComfyUI") ∧
         (∀ pid, queue_prompt qr = some pid →
            (generate_selfie ⟨ok, fe, fu, wf, qr⟩ fan imgs w h p sd).1
              = Except.ok pid))) := by
  refine ⟨?_, ?_, ?_⟩
  · intro hok
    simp [generate_selfie, hok]
  · cases ok <;> rfl
  · intro wfB hok hbuild
    subst hok
    constructor
    · intro hq
      simp [generate_selfie, hbuild, hq, Except.bind]
      rfl
    · intro pid hq
      simp [generate_selfie, hbuild, hq, Except.bind]
      rfl

/-- Witness for C10: the healthy environment submits successfully with no
influencer image present locally. -/
theorem C10_influencer_uploads_ignored_witness :
    (generate_selfie cEnvOk "f.png" [] none none none 0).1 = Except.ok "p1" :=
  ((C10_influencer_uploads_ignored true (fun _ => false) (fun _ => true)
      (fun _ => false) (fun _ => true) cWf (Except.ok (200, some "p1")) "f.png" []
      none none none 0).2.2 c10Wf rfl rfl).2 "p1" rfl

end GenSelfie
